import Mathlib

/-!
Verification of the COCO dataset formatter (dataproc/coco_formatter.py).

The embedding translates the formatter's pure logic into Lean:

* Python floats are modelled as exact rationals (the thresholds and the
  pixel-count areas involved are all exactly representable).
* The binary mask raster itself is produced and consumed only by external
  libraries (pycocotools `mask.encode` / `mask.area` / `mask.toBbox`,
  skimage `measure.find_contours` / `measure.approximate_polygon`), which
  the spec declares out of scope.  A `MaskEntry` therefore carries the
  results those externals return for the mask (area, bounding box,
  polygon list), and `get_polygons` is parameterised by the contour list
  returned by `find_contours` and by the `approximate_polygon`
  simplification function.
* Filesystem writes are modelled by recording, in emission order, the
  file names `process_db_list` passes to `cv2.imwrite`.
* The Python default argument `date_captured=datetime.utcnow().isoformat(' ')`
  of `_get_image_info` is evaluated once per process; the snapshot string is a
  field `date_captured_default` of the model configuration, as is the
  `date_created` snapshot baked into the `INFO` block.
-/

namespace CocoFormatter

/-- Bounding box as stored in an emitted record: `[int(x), int(y), int(width),
int(height)]` from `mask.toBbox`. -/
structure BBox where
  x : Int
  y : Int
  width : Int
  height : Int
  deriving DecidableEq

/-- The record built by `_get_annotation_info` (line 161 of the source). -/
structure AnnotationRecord where
  id : Nat
  image_id : Nat
  category_id : Int
  segmentation : List (List ℚ)
  area : ℚ
  bbox : BBox
  iscrowd : Nat
  deriving DecidableEq

/-- One element of `img_entry.annotation_list`: its category name together
with the geometry the external libraries derive from its binary mask. -/
structure MaskEntry where
  category_name : String
  mask_area : ℚ
  mask_bbox : BBox
  mask_polygons : List (List ℚ)
  deriving DecidableEq

/-- One indexed entry of a source database: the shape of its `rgb_image`
plus its ordered mask list. -/
structure ImgEntry where
  height : Nat
  width : Nat
  annotation_list : List MaskEntry
  deriving DecidableEq

/-- The record built by `_get_image_info`. -/
structure ImageInfo where
  id : Nat
  width : Nat
  height : Nat
  file_name : String
  license : Nat
  flickr_url : String
  coco_url : String
  date_captured : String
  deriving DecidableEq

/-- An element of `object_category`: a record of a name and an id. -/
structure Category where
  name : String
  id : Int
  deriving DecidableEq

/-- The configuration `COCODatasetFormatterConfig` restricted to the fields the processing
logic reads, plus the two per-process timestamp snapshots. -/
structure COCODatasetFormatterConfig where
  db_name : String
  object_category : List Category
  BBOX_MIN_WIDTH : ℚ := 5
  BBOX_MIN_HEIGHT : ℚ := 5
  AREA_THRESHOLD : ℚ := 25
  info_date_created : String
  date_captured_default : String
  deriving DecidableEq

/-- Lookup in the `_category_name2id` dict built in `__init__`: insertion
iterates `object_category` in order and later entries overwrite earlier
ones, so the last binding of a name wins. -/
def category_name2id (cfg : COCODatasetFormatterConfig) (name : String) : Option Int :=
  (cfg.object_category.reverse.find? (fun c => c.name == name)).map Category.id

/-- Source `_check_annotation_valid`: the three rejection tests, in source order. -/
def _check_annotation_valid (cfg : COCODatasetFormatterConfig)
    (ann : AnnotationRecord) : Bool :=
  if ann.segmentation.length = 0 then false
  else if ann.area < cfg.AREA_THRESHOLD then false
  else if ((ann.bbox.width : ℚ) < cfg.BBOX_MIN_WIDTH) ∨
      ((ann.bbox.height : ℚ) < cfg.BBOX_MIN_HEIGHT) then false
  else true

/-- Source `_get_annotation_info`: assemble the record from the mask's derived
geometry and run the validity check on it. -/
def _get_annotation_info (cfg : COCODatasetFormatterConfig)
    (annotation_id image_id : Nat) (category_id : Int) (m : MaskEntry) :
    Bool × AnnotationRecord :=
  let ann : AnnotationRecord :=
    { id := annotation_id, image_id := image_id, category_id := category_id,
      segmentation := m.mask_polygons, area := m.mask_area,
      bbox := m.mask_bbox, iscrowd := 0 }
  (_check_annotation_valid cfg ann, ann)

/-- Whether a mask would pass `_check_annotation_valid`; the check reads
only the segmentation, area and bbox fields, so the ids do not matter. -/
def maskValid (cfg : COCODatasetFormatterConfig) (m : MaskEntry) : Bool :=
  (_get_annotation_info cfg 0 0 0 m).1

/-- Steps of `get_polygons`.  A contour is a list of `(row, col)`
points as returned by `measure.find_contours` on the padded mask. -/
def shiftContour (c : List (ℚ × ℚ)) : List (ℚ × ℚ) :=
  c.map (fun p => (p.1 - 1, p.2 - 1))

/-- Ring closing: if the first and last point differ, append the first. -/
def closeContourRing (c : List (ℚ × ℚ)) : List (ℚ × ℚ) :=
  match c.head?, c.getLast? with
  | some f, some l => if f = l then c else c ++ [f]
  | _, _ => c

/-- Step `np.flip(contour, axis=1)` followed by `ravel`: emit `col, row`
(i.e. `x, y`) for each point, flattened. -/
def flattenXY (c : List (ℚ × ℚ)) : List ℚ :=
  (c.map (fun p => [p.2, p.1])).flatten

/-- Comprehension `[0 if i < 0 else i for i in segmentation]`. -/
def clampNonneg (xs : List ℚ) : List ℚ :=
  xs.map (fun i => if i < 0 then 0 else i)

/-- The loop body of `get_polygons` for one (already shifted) contour:
close the ring, simplify, drop rings shorter than 3 points, flatten and
clamp the survivors. -/
def processContour (approximate_polygon : List (ℚ × ℚ) → List (ℚ × ℚ))
    (c : List (ℚ × ℚ)) : Option (List ℚ) :=
  let simplified := approximate_polygon (closeContourRing c)
  if simplified.length < 3 then none
  else some (clampNonneg (flattenXY simplified))

/-- Source `get_polygons`: shift every contour by −1 (undoing the padding), then
run the loop body over the contours in order, keeping the survivors. -/
def get_polygons (approximate_polygon : List (ℚ × ℚ) → List (ℚ × ℚ))
    (contours : List (List (ℚ × ℚ))) : List (List ℚ) :=
  (contours.map shiftContour).filterMap (processContour approximate_polygon)

/-- Zero-pad a decimal numeral to width 5, as Python min-width-5 zero-fill formatting of the image id does. -/
def zeroPad5 (n : Nat) : String :=
  let s := toString n
  String.mk (List.replicate (5 - s.length) '0') ++ s

/-- The basename `process_db_list` writes the kept image under. -/
def imageFileName (image_id : Nat) : String :=
  zeroPad5 image_id ++ ".png"

/-- Source `_get_image_info`: assemble the image record.  At its one call site the
defaulted arguments receive `1`, `""`, `""` and the per-process
`date_captured` snapshot. -/
def _get_image_info (image_id width height : Nat) (file_name : String)
    (license_id : Nat) (flickr_url coco_url date_captured : String) : ImageInfo :=
  { id := image_id, width := width, height := height, file_name := file_name,
    license := license_id, flickr_url := flickr_url, coco_url := coco_url,
    date_captured := date_captured }

/-- The mutable state of `process_db_list`: the two counters, the two
global lists, and (modelling `cv2.imwrite`) the image files written so
far, in emission order. -/
structure AggState where
  image_id : Nat
  annotation_id : Nat
  all_annotation_list : List AnnotationRecord
  all_image_info_list : List ImageInfo
  written_files : List String
  deriving DecidableEq

/-- The inner `for annotation_entry in img_entry.annotation_list` loop:
skip unknown categories, build each remaining record with the tentative
next id, keep it and bump the counter when the validity check passes.
Returns the final counter and `img_annotation_list` in emission order. -/
def processEntryMasks (cfg : COCODatasetFormatterConfig) (image_id : Nat) :
    Nat → List MaskEntry → Nat × List AnnotationRecord
  | annotation_id, [] => (annotation_id, [])
  | annotation_id, m :: rest =>
    match category_name2id cfg m.category_name with
    | none => processEntryMasks cfg image_id annotation_id rest
    | some category_id =>
      if (_get_annotation_info cfg annotation_id image_id category_id m).1 then
        ((processEntryMasks cfg image_id (annotation_id + 1) rest).1,
          (_get_annotation_info cfg annotation_id image_id category_id m).2
            :: (processEntryMasks cfg image_id (annotation_id + 1) rest).2)
      else
        processEntryMasks cfg image_id annotation_id rest

/-- The body of the `for entry_idx in range(len(database))` loop: if no
mask survived, move on (the image contributes nothing and its would-be id
is not consumed); otherwise merge the staged records, write the image
under the current id, append its `ImageInfo` and bump the image counter. -/
def processEntry (cfg : COCODatasetFormatterConfig) (st : AggState)
    (e : ImgEntry) : AggState :=
  let res := processEntryMasks cfg st.image_id st.annotation_id e.annotation_list
  if res.2.length = 0 then
    { st with annotation_id := res.1 }
  else
    let fname := imageFileName st.image_id
    let info := _get_image_info st.image_id e.width e.height fname
      1 "" "" cfg.date_captured_default
    { image_id := st.image_id + 1,
      annotation_id := res.1,
      all_annotation_list := st.all_annotation_list ++ res.2,
      all_image_info_list := st.all_image_info_list ++ [info],
      written_files := st.written_files ++ [fname] }

/-- One database: entries `0 .. len-1` processed in order. -/
def processEntries (cfg : COCODatasetFormatterConfig) :
    AggState → List ImgEntry → AggState
  | st, [] => st
  | st, e :: rest => processEntries cfg (processEntry cfg st e) rest

/-- The outer `for database in database_list` loop. -/
def processDbs (cfg : COCODatasetFormatterConfig) :
    AggState → List (List ImgEntry) → AggState
  | st, [] => st
  | st, db :: rest => processDbs cfg (processEntries cfg st db) rest

/-- Initial state: `image_id = 0`, `annotation_id = 0`, both lists empty. -/
def initState : AggState :=
  { image_id := 0, annotation_id := 0, all_annotation_list := [],
    all_image_info_list := [], written_files := [] }

/-- The final loop state of `process_db_list` on a database list. -/
def process_db_state (cfg : COCODatasetFormatterConfig)
    (dbs : List (List ImgEntry)) : AggState :=
  processDbs cfg initState dbs

/-- The `INFO` block of the config (all fields constant except the
`date_created` snapshot). -/
structure CocoInfo where
  description : String
  url : String
  version : String
  year : Nat
  contributor : String
  date_created : String
  deriving DecidableEq

/-- A `LICENSES` element. -/
structure LicenseRec where
  id : Nat
  name : String
  url : String
  deriving DecidableEq

def mkInfo (cfg : COCODatasetFormatterConfig) : CocoInfo :=
  { description := "Dense Correspondence COCO Dataset",
    url := "https://github.com/RobotLocomotion/pytorch-dense-correspondence",
    version := "", year := 2018, contributor := "",
    date_created := cfg.info_date_created }

def LICENSES : List LicenseRec := [{ id := 1, name := "", url := "" }]

/-- The document handed to `json.dump`. -/
structure CocoOutput where
  info : CocoInfo
  licenses : List LicenseRec
  categories : List Category
  images : List ImageInfo
  all_records : List AnnotationRecord
  deriving DecidableEq

/-- Source `_get_coco_output_from_images_and_annotations`. -/
def _get_coco_output (cfg : COCODatasetFormatterConfig)
    (images : List ImageInfo) (records : List AnnotationRecord) : CocoOutput :=
  { info := mkInfo cfg, licenses := LICENSES,
    categories := cfg.object_category, images := images,
    all_records := records }

/-- Source `process_db_list` end to end: run the loops, then assemble the
document (serialisation by `json.dump` is external and deterministic). -/
def process_db_list (cfg : COCODatasetFormatterConfig)
    (dbs : List (List ImgEntry)) : CocoOutput :=
  _get_coco_output cfg (process_db_state cfg dbs).all_image_info_list
    (process_db_state cfg dbs).all_annotation_list

/-! Concrete inputs used to exercise the theorems below. -/

/-- A configuration with the default thresholds and one category. -/
def cfgEx : COCODatasetFormatterConfig :=
  { db_name := "boot_db", object_category := [{ name := "shoe", id := 3 }],
    info_date_created := "2018-01-01 00:00:00",
    date_captured_default := "2018-01-01 00:00:01" }

/-- A record whose area sits exactly on the threshold, everything else
comfortably admissible. -/
def annThrEx : AnnotationRecord :=
  { id := 0, image_id := 0, category_id := 3,
    segmentation := [[5, 5, 15, 5, 15, 15, 5, 15]],
    area := 25, bbox := { x := 5, y := 5, width := 10, height := 10 },
    iscrowd := 0 }

/-- A mask whose category is not in `cfgEx`'s table. -/
def unkMaskEx : MaskEntry :=
  { category_name := "mug", mask_area := 100,
    mask_bbox := { x := 5, y := 5, width := 10, height := 10 },
    mask_polygons := [[5, 5, 15, 5, 15, 15, 5, 15]] }

/-- A (row, col) contour on the padded raster. -/
def contourEx : List (ℚ × ℚ) := [(0, 0), (0, 2), (2, 2)]

/-- The flattened ring `get_polygons` produces from `contourEx`. -/
def polyEx : List ℚ := [0, 0, 1, 0, 1, 1, 0, 0]

/-! ### C4: the threshold boundary -/

/-- Claim C4, counterexample: with the default config, a record whose
area equals `AREA_THRESHOLD` exactly (segmentation non-empty, bbox at the
minimums or above) is ACCEPTED by `_check_annotation_valid`, because the
source compares with strict `<`; the claim says it is rejected. -/
theorem threshold_boundary_cx :
    annThrEx.segmentation ≠ [] ∧
    cfgEx.BBOX_MIN_WIDTH ≤ (annThrEx.bbox.width : ℚ) ∧
    cfgEx.BBOX_MIN_HEIGHT ≤ (annThrEx.bbox.height : ℚ) ∧
    annThrEx.area = cfgEx.AREA_THRESHOLD ∧
    _check_annotation_valid cfgEx annThrEx = true := by
  exact ⟨by decide, by decide, by decide, by decide, by decide⟩

/-- Claim C4 (amended): for a record with non-empty segmentation and bbox
width and height at or above their minimums, the validity check rejects it
exactly when its area is strictly below `AREA_THRESHOLD`, and accepts it
whenever the area is greater than or equal to the threshold (equality is
accepted: the comparison is strict `<`). -/
theorem threshold_boundary_amended (cfg : COCODatasetFormatterConfig)
    (ann : AnnotationRecord) (hseg : ann.segmentation ≠ [])
    (hw : cfg.BBOX_MIN_WIDTH ≤ (ann.bbox.width : ℚ))
    (hh : cfg.BBOX_MIN_HEIGHT ≤ (ann.bbox.height : ℚ)) :
    (ann.area < cfg.AREA_THRESHOLD → _check_annotation_valid cfg ann = false) ∧
    (cfg.AREA_THRESHOLD ≤ ann.area → _check_annotation_valid cfg ann = true) := by
  have h0 : ¬ ann.segmentation.length = 0 := by
    simpa [List.length_eq_zero] using hseg
  have h2 : ¬ (((ann.bbox.width : ℚ) < cfg.BBOX_MIN_WIDTH) ∨
      ((ann.bbox.height : ℚ) < cfg.BBOX_MIN_HEIGHT)) := by
    push_neg
    exact ⟨hw, hh⟩
  constructor
  · intro hlt
    simp [_check_annotation_valid, h0, hlt]
  · intro hge
    have h1 : ¬ ann.area < cfg.AREA_THRESHOLD := not_lt.mpr hge
    simp [_check_annotation_valid, h0, h1, h2]

/-- Witness for the amended C4 at the concrete boundary input. -/
theorem threshold_boundary_amended_witness :
    (annThrEx.area < cfgEx.AREA_THRESHOLD →
      _check_annotation_valid cfgEx annThrEx = false) ∧
    (cfgEx.AREA_THRESHOLD ≤ annThrEx.area →
      _check_annotation_valid cfgEx annThrEx = true) :=
  threshold_boundary_amended cfgEx annThrEx (by decide) (by decide) (by decide)

/-! ### C5: full characterisation of the validity check -/

/-- Claim C5: `_check_annotation_valid` returns false if the segmentation
list is empty, false if `area < AREA_THRESHOLD`, false if the bbox width
is below `BBOX_MIN_WIDTH` or the height below `BBOX_MIN_HEIGHT`, and true
in all other cases. -/
theorem check_annotation_valid_spec (cfg : COCODatasetFormatterConfig)
    (ann : AnnotationRecord) :
    _check_annotation_valid cfg ann = true ↔
      (ann.segmentation ≠ [] ∧
       ¬ ann.area < cfg.AREA_THRESHOLD ∧
       ¬ (((ann.bbox.width : ℚ) < cfg.BBOX_MIN_WIDTH) ∨
          ((ann.bbox.height : ℚ) < cfg.BBOX_MIN_HEIGHT))) := by
  unfold _check_annotation_valid
  split_ifs with h1 h2 h3 <;> simp_all [List.length_eq_zero]

/-! ### C6: unknown categories are skipped silently -/

/-- Claim C6: a mask whose category name is absent from the category
table is skipped: the loop continues exactly as if the mask were not
there — no record is produced, no id is consumed, no error is raised. -/
theorem unknown_category_skipped (cfg : COCODatasetFormatterConfig)
    (image_id annotation_id : Nat) (m : MaskEntry) (rest : List MaskEntry)
    (h : category_name2id cfg m.category_name = none) :
    processEntryMasks cfg image_id annotation_id (m :: rest)
      = processEntryMasks cfg image_id annotation_id rest := by
  simp [processEntryMasks, h]

/-- Witness for C6 at a concrete unknown-category mask. -/
theorem unknown_category_skipped_witness :
    processEntryMasks cfgEx 0 0 [unkMaskEx] = processEntryMasks cfgEx 0 0 [] :=
  unknown_category_skipped cfgEx 0 0 unkMaskEx [] (by decide)

/-! ### C7: every kept ring has at least 3 vertices and no negative
coordinate -/

theorem flattenXY_length (c : List (ℚ × ℚ)) :
    (flattenXY c).length = 2 * c.length := by
  induction c with
  | nil => rfl
  | cons p rest ih =>
    simp only [flattenXY, List.map_cons, List.flatten_cons, List.length_append,
      List.length_cons, List.length_nil] at *
    omega

theorem clampNonneg_length (xs : List ℚ) :
    (clampNonneg xs).length = xs.length := by
  simp [clampNonneg]

theorem clampNonneg_nonneg (xs : List ℚ) : ∀ x ∈ clampNonneg xs, 0 ≤ x := by
  intro x hx
  simp only [clampNonneg, List.mem_map] at hx
  obtain ⟨i, _, rfl⟩ := hx
  split
  · exact le_refl 0
  · next h => exact le_of_not_lt h

/-- Claim C7: every flattened ring returned by `get_polygons` (for any
contour list and any simplification function) has at least 3 vertices,
i.e. at least 6 numbers, and contains no negative coordinate: rings
shorter than 3 points after simplification are discarded, and negative
values in kept rings are clamped to 0. -/
theorem get_polygons_ring_invariant
    (approximate_polygon : List (ℚ × ℚ) → List (ℚ × ℚ))
    (contours : List (List (ℚ × ℚ))) :
    ∀ poly ∈ get_polygons approximate_polygon contours,
      6 ≤ poly.length ∧ ∀ x ∈ poly, 0 ≤ x := by
  intro poly hmem
  simp only [get_polygons, List.mem_filterMap] at hmem
  obtain ⟨c, _, hc⟩ := hmem
  unfold processContour at hc
  by_cases hlen : (approximate_polygon (closeContourRing c)).length < 3
  · rw [if_pos hlen] at hc
    exact absurd hc (by simp)
  · rw [if_neg hlen] at hc
    injection hc with h
    subst h
    constructor
    · rw [clampNonneg_length, flattenXY_length]
      omega
    · exact clampNonneg_nonneg _

/-- Witness for C7 on a concrete triangle contour. -/
theorem get_polygons_ring_invariant_witness :
    6 ≤ polyEx.length ∧ ∀ x ∈ polyEx, 0 ≤ x :=
  get_polygons_ring_invariant id [contourEx] polyEx (by
    norm_num [get_polygons, shiftContour, closeContourRing, processContour,
      flattenXY, clampNonneg, contourEx, polyEx])

/-! ### The aggregation invariant -/

/-- Validity of a built record does not depend on the ids it carries:
the check reads only the segmentation, area and bbox fields. -/
theorem get_annotation_info_fst (cfg : COCODatasetFormatterConfig)
    (aid img : Nat) (cid : Int) (m : MaskEntry) :
    (_get_annotation_info cfg aid img cid m).1 = maskValid cfg m := rfl

/-- The inner mask loop: the returned counter advances by exactly the
number of kept records, the kept records carry the consecutive ids
starting at the incoming counter, and all of them point at the current
image id. -/
theorem processEntryMasks_spec (cfg : COCODatasetFormatterConfig)
    (image_id : Nat) (masks : List MaskEntry) :
    ∀ aid : Nat,
      (processEntryMasks cfg image_id aid masks).1
        = aid + (processEntryMasks cfg image_id aid masks).2.length ∧
      (processEntryMasks cfg image_id aid masks).2.map AnnotationRecord.id
        = List.range' aid (processEntryMasks cfg image_id aid masks).2.length ∧
      ∀ a ∈ (processEntryMasks cfg image_id aid masks).2, a.image_id = image_id := by
  induction masks with
  | nil =>
    intro aid
    simp [processEntryMasks]
  | cons m rest ih =>
    intro aid
    cases hcat : category_name2id cfg m.category_name with
    | none =>
      simpa only [processEntryMasks, hcat] using ih aid
    | some cid =>
      cases hv : (_get_annotation_info cfg aid image_id cid m).1 with
      | false =>
        simpa only [processEntryMasks, hcat, hv, Bool.false_eq_true,
          if_false] using ih aid
      | true =>
        obtain ⟨ih1, ih2, ih3⟩ := ih (aid + 1)
        simp only [processEntryMasks, hcat, hv, if_true]
        refine ⟨?_, ?_, ?_⟩
        · simp only [List.length_cons]
          omega
        · have hid : (_get_annotation_info cfg aid image_id cid m).2.id = aid := rfl
          simp only [List.map_cons, List.length_cons, hid, List.range'_succ]
          rw [ih2]
        · intro a ha
          rcases List.mem_cons.mp ha with h | h
          · subst h
            rfl
          · exact ih3 a h

/-- A list of records all pointing at the same image maps to a weakly
sorted image-id sequence. -/
theorem sorted_le_of_const (k : Nat) (l : List AnnotationRecord)
    (h : ∀ a ∈ l, a.image_id = k) :
    List.Sorted (fun x y => x ≤ y) (l.map AnnotationRecord.image_id) := by
  induction l with
  | nil => simp
  | cons a rest ih =>
    simp only [List.map_cons, List.sorted_cons]
    refine ⟨?_, ih (fun a2 ha2 => h a2 (by simp [ha2]))⟩
    intro b hb
    simp only [List.mem_map] at hb
    obtain ⟨a2, ha2, rfl⟩ := hb
    rw [h a (by simp), h a2 (by simp [ha2])]

theorem range_append_range' (n k : Nat) :
    List.range n ++ List.range' n k = List.range (n + k) := by
  rw [List.range_eq_range', List.range_eq_range']
  have h := List.range'_append_1 0 n k
  rw [Nat.zero_add, Nat.add_comm k n] at h
  exact h

/-- The loop invariant of `process_db_list`: both counters equal the
lengths of their lists, both lists carry exactly the ids `0 .. len-1` in
order, every record's `image_id` is a kept image id, the image-id column
of the record list is weakly sorted (blocks are contiguous and in
emission order), and every kept `ImageInfo` has the constant license and
URL fields and the per-process timestamp. -/
def Inv (cfg : COCODatasetFormatterConfig) (st : AggState) : Prop :=
  st.image_id = st.all_image_info_list.length ∧
  st.all_image_info_list.map ImageInfo.id = List.range st.image_id ∧
  st.annotation_id = st.all_annotation_list.length ∧
  st.all_annotation_list.map AnnotationRecord.id = List.range st.annotation_id ∧
  (∀ a ∈ st.all_annotation_list, a.image_id < st.image_id) ∧
  List.Sorted (fun x y => x ≤ y)
    (st.all_annotation_list.map AnnotationRecord.image_id) ∧
  (∀ i ∈ st.all_image_info_list,
    i.license = 1 ∧ i.flickr_url = "" ∧ i.coco_url = "" ∧
      i.date_captured = cfg.date_captured_default)

theorem Inv_initState (cfg : COCODatasetFormatterConfig) : Inv cfg initState := by
  simp [Inv, initState]

theorem Inv_processEntry (cfg : COCODatasetFormatterConfig) (st : AggState)
    (e : ImgEntry) (hinv : Inv cfg st) : Inv cfg (processEntry cfg st e) := by
  obtain ⟨h1, h2, h3, h4, h5, h6, h7⟩ := hinv
  obtain ⟨hm1, hm2, hm3⟩ :=
    processEntryMasks_spec cfg st.image_id e.annotation_list st.annotation_id
  unfold processEntry
  by_cases hlen :
      (processEntryMasks cfg st.image_id st.annotation_id e.annotation_list).2.length = 0
  · rw [if_pos hlen]
    refine ⟨h1, h2, ?_, ?_, h5, h6, h7⟩
    · show (processEntryMasks cfg st.image_id st.annotation_id e.annotation_list).1
        = st.all_annotation_list.length
      rw [hm1, hlen, Nat.add_zero]
      exact h3
    · show st.all_annotation_list.map AnnotationRecord.id
        = List.range (processEntryMasks cfg st.image_id st.annotation_id e.annotation_list).1
      rw [hm1, hlen, Nat.add_zero]
      exact h4
  · rw [if_neg hlen]
    refine ⟨?_, ?_, ?_, ?_, ?_, ?_, ?_⟩
    · show st.image_id + 1 = (st.all_image_info_list ++ [_]).length
      simp only [List.length_append, List.length_cons, List.length_nil]
      omega
    · show (st.all_image_info_list ++ [_]).map ImageInfo.id
        = List.range (st.image_id + 1)
      rw [List.map_append, h2, List.range_succ]
      rfl
    · show (processEntryMasks cfg st.image_id st.annotation_id e.annotation_list).1
        = (st.all_annotation_list
            ++ (processEntryMasks cfg st.image_id st.annotation_id e.annotation_list).2).length
      rw [hm1, List.length_append, h3]
    · show (st.all_annotation_list
          ++ (processEntryMasks cfg st.image_id st.annotation_id e.annotation_list).2).map
            AnnotationRecord.id
        = List.range (processEntryMasks cfg st.image_id st.annotation_id e.annotation_list).1
      rw [List.map_append, h4, hm2, hm1, range_append_range']
    · intro a ha
      rcases List.mem_append.mp ha with h | h
      · exact Nat.lt_succ_of_lt (h5 a h)
      · rw [hm3 a h]
        exact Nat.lt_succ_self _
    · show List.Sorted (fun x y => x ≤ y)
        ((st.all_annotation_list
            ++ (processEntryMasks cfg st.image_id st.annotation_id e.annotation_list).2).map
          AnnotationRecord.image_id)
      rw [List.map_append]
      refine List.pairwise_append.mpr ⟨h6, sorted_le_of_const st.image_id _ hm3, ?_⟩
      intro x hx y hy
      simp only [List.mem_map] at hx hy
      obtain ⟨ax, hax, rfl⟩ := hx
      obtain ⟨ay, hay, rfl⟩ := hy
      rw [hm3 ay hay]
      exact Nat.le_of_lt (h5 ax hax)
    · intro i hi
      rcases List.mem_append.mp hi with h | h
      · exact h7 i h
      · rcases List.mem_singleton.mp h with rfl
        exact ⟨rfl, rfl, rfl, rfl⟩

theorem Inv_processEntries (cfg : COCODatasetFormatterConfig)
    (db : List ImgEntry) :
    ∀ st : AggState, Inv cfg st → Inv cfg (processEntries cfg st db) := by
  induction db with
  | nil =>
    intro st h
    simpa [processEntries] using h
  | cons e rest ih =>
    intro st h
    simpa only [processEntries] using ih _ (Inv_processEntry cfg st e h)

theorem Inv_processDbs (cfg : COCODatasetFormatterConfig)
    (dbs : List (List ImgEntry)) :
    ∀ st : AggState, Inv cfg st → Inv cfg (processDbs cfg st dbs) := by
  induction dbs with
  | nil =>
    intro st h
    simpa [processDbs] using h
  | cons db rest ih =>
    intro st h
    simpa only [processDbs] using ih _ (Inv_processEntries cfg db st h)

theorem Inv_process_db_state (cfg : COCODatasetFormatterConfig)
    (dbs : List (List ImgEntry)) : Inv cfg (process_db_state cfg dbs) :=
  Inv_processDbs cfg dbs initState (Inv_initState cfg)

/-! ### Concrete runs used by the witnesses -/

/-- A mask that passes every check under `cfgEx`. -/
def okMaskEx : MaskEntry :=
  { category_name := "shoe", mask_area := 100,
    mask_bbox := { x := 5, y := 5, width := 10, height := 10 },
    mask_polygons := [[5, 5, 15, 5, 15, 15, 5, 15]] }

def okEntryEx : ImgEntry :=
  { height := 20, width := 20, annotation_list := [okMaskEx] }

def dbsEx : List (List ImgEntry) := [[okEntryEx]]

/-- The record the run over `dbsEx` emits. -/
def annRecEx : AnnotationRecord :=
  { id := 0, image_id := 0, category_id := 3,
    segmentation := [[5, 5, 15, 5, 15, 15, 5, 15]],
    area := 100, bbox := { x := 5, y := 5, width := 10, height := 10 },
    iscrowd := 0 }

/-- The image record the run over `dbsEx` emits. -/
def imgInfoEx : ImageInfo :=
  { id := 0, width := 20, height := 20, file_name := "00000.png",
    license := 1, flickr_url := "", coco_url := "",
    date_captured := "2018-01-01 00:00:01" }

/-- A mask below the area threshold. -/
def badMaskEx : MaskEntry :=
  { category_name := "shoe", mask_area := 4,
    mask_bbox := { x := 0, y := 0, width := 2, height := 2 },
    mask_polygons := [[0, 0, 2, 0, 2, 2]] }

/-- An entry all of whose masks are inadmissible: one fails validation,
one has an unknown category. -/
def badEntryEx : ImgEntry :=
  { height := 20, width := 20, annotation_list := [badMaskEx, unkMaskEx] }

/-! ### C1: dense, zero-based, strictly increasing ids -/

/-- Claim C1: in any run of `process_db_list`, the emitted image ids are
exactly `0 .. len(images)-1` in emission order and the emitted record ids
are exactly `0 .. len(all records)-1` in emission order — no gaps, no
reuse. -/
theorem process_db_list_dense_ids (cfg : COCODatasetFormatterConfig)
    (dbs : List (List ImgEntry)) :
    (process_db_state cfg dbs).all_image_info_list.map ImageInfo.id
      = List.range (process_db_state cfg dbs).all_image_info_list.length ∧
    (process_db_state cfg dbs).all_annotation_list.map AnnotationRecord.id
      = List.range (process_db_state cfg dbs).all_annotation_list.length := by
  obtain ⟨h1, h2, h3, h4, _, _, _⟩ := Inv_process_db_state cfg dbs
  constructor
  · rw [← h1]
    exact h2
  · rw [← h3]
    exact h4

/-! ### C2: referential integrity -/

/-- Claim C2: every emitted record's `image_id` is the id of some
`ImageInfo` present in the same output. -/
theorem process_db_list_ref_integrity (cfg : COCODatasetFormatterConfig)
    (dbs : List (List ImgEntry)) :
    ∀ a ∈ (process_db_state cfg dbs).all_annotation_list,
      ∃ i ∈ (process_db_state cfg dbs).all_image_info_list, i.id = a.image_id := by
  obtain ⟨_, h2, _, _, h5, _, _⟩ := Inv_process_db_state cfg dbs
  intro a ha
  have hmem : a.image_id ∈ List.range (process_db_state cfg dbs).image_id :=
    List.mem_range.mpr (h5 a ha)
  rw [← h2] at hmem
  simp only [List.mem_map] at hmem
  obtain ⟨i, hi, hid⟩ := hmem
  exact ⟨i, hi, hid⟩

/-- Witness for C2 on the one-entry run. -/
theorem process_db_list_ref_integrity_witness :
    ∃ i ∈ (process_db_state cfgEx dbsEx).all_image_info_list,
      i.id = annRecEx.image_id :=
  process_db_list_ref_integrity cfgEx dbsEx annRecEx (by decide)

/-! ### C3: entries with no admissible mask are dropped whole -/

/-- Claim C3: an entry whose every mask has an unknown category or fails
validation leaves the whole loop state untouched — nothing is appended to
the image list, no image file is written, and neither counter advances,
so the would-be image id goes to the next kept image. -/
theorem drop_invalid_entry (cfg : COCODatasetFormatterConfig) (st : AggState)
    (e : ImgEntry)
    (h : ∀ m ∈ e.annotation_list,
      category_name2id cfg m.category_name = none ∨ maskValid cfg m = false) :
    processEntry cfg st e = st := by
  have hmask : ∀ (l : List MaskEntry),
      (∀ m ∈ l, category_name2id cfg m.category_name = none ∨
        maskValid cfg m = false) →
      ∀ aid : Nat, processEntryMasks cfg st.image_id aid l = (aid, []) := by
    intro l
    induction l with
    | nil =>
      intro _ aid
      rfl
    | cons m rest ih =>
      intro hl aid
      have hrest := ih (fun m2 hm2 => hl m2 (by simp [hm2]))
      cases hcat : category_name2id cfg m.category_name with
      | none =>
        simpa only [processEntryMasks, hcat] using hrest aid
      | some cid =>
        rcases hl m (by simp) with hc | hv
        · rw [hcat] at hc
          exact absurd hc (by simp)
        · have hfalse : (_get_annotation_info cfg aid st.image_id cid m).1 = false := by
            rw [get_annotation_info_fst]
            exact hv
          simpa only [processEntryMasks, hcat, hfalse, Bool.false_eq_true,
            if_false] using hrest aid
  unfold processEntry
  rw [hmask e.annotation_list h st.annotation_id]
  rfl

/-- Witness for C3: an entry holding one below-threshold mask and one
unknown-category mask leaves the initial state unchanged. -/
theorem drop_invalid_entry_witness :
    processEntry cfgEx initState badEntryEx = initState :=
  drop_invalid_entry cfgEx initState badEntryEx (by decide)

/-! ### C9: record emission order -/

/-- Claim C9: in the emitted record list, records of one image form one
contiguous block (the image-id column is weakly sorted), blocks appear in
increasing image-id order, and the id column is exactly `0 .. n-1` in
order — so the whole list is strictly sorted by record id, and within a
block ids increase in mask-visit order. -/
theorem process_db_list_order (cfg : COCODatasetFormatterConfig)
    (dbs : List (List ImgEntry)) :
    List.Sorted (fun x y => x ≤ y)
      ((process_db_state cfg dbs).all_annotation_list.map AnnotationRecord.image_id) ∧
    (process_db_state cfg dbs).all_annotation_list.map AnnotationRecord.id
      = List.range (process_db_state cfg dbs).all_annotation_list.length ∧
    List.Sorted (fun x y => x < y)
      ((process_db_state cfg dbs).all_annotation_list.map AnnotationRecord.id) := by
  obtain ⟨_, _, h3, h4, _, h6, _⟩ := Inv_process_db_state cfg dbs
  refine ⟨h6, ?_, ?_⟩
  · rw [← h3]
    exact h4
  · rw [h4]
    exact List.sorted_lt_range _

/-! ### C10: constant ImageInfo fields and the shared timestamp -/

/-- Claim C10: every emitted `ImageInfo` has `license = 1`, empty
`flickr_url` and `coco_url`, and carries the one per-process
`date_captured` snapshot (the Python default argument is evaluated once,
not per image), so all images of a run share the identical string. -/
theorem image_info_constant_fields (cfg : COCODatasetFormatterConfig)
    (dbs : List (List ImgEntry)) :
    ∀ i ∈ (process_db_state cfg dbs).all_image_info_list,
      i.license = 1 ∧ i.flickr_url = "" ∧ i.coco_url = "" ∧
        i.date_captured = cfg.date_captured_default := by
  obtain ⟨_, _, _, _, _, _, h7⟩ := Inv_process_db_state cfg dbs
  exact h7

/-- Witness for C10 on the one-entry run. -/
theorem image_info_constant_fields_witness :
    imgInfoEx.license = 1 ∧ imgInfoEx.flickr_url = "" ∧ imgInfoEx.coco_url = "" ∧
      imgInfoEx.date_captured = cfgEx.date_captured_default :=
  image_info_constant_fields cfgEx dbsEx imgInfoEx (by decide)

/-! ### C8: determinism modulo the timestamp snapshots -/

/-- Two configurations that agree on everything the processing logic
reads, differing (at most) in the two per-process timestamp snapshots. -/
def SameExceptTimestamps (c1 c2 : COCODatasetFormatterConfig) : Prop :=
  c1.db_name = c2.db_name ∧
  c1.object_category = c2.object_category ∧
  c1.BBOX_MIN_WIDTH = c2.BBOX_MIN_WIDTH ∧
  c1.BBOX_MIN_HEIGHT = c2.BBOX_MIN_HEIGHT ∧
  c1.AREA_THRESHOLD = c2.AREA_THRESHOLD

/-- Blank the timestamp of one image record. -/
def scrubImageInfo (i : ImageInfo) : ImageInfo :=
  { i with date_captured := "" }

/-- Blank the timestamps of a loop state. -/
def scrubState (s : AggState) : AggState :=
  { s with all_image_info_list := s.all_image_info_list.map scrubImageInfo }

/-- Blank the timestamps of a document. -/
def scrubOutput (o : CocoOutput) : CocoOutput :=
  { o with info := { o.info with date_created := "" },
           images := o.images.map scrubImageInfo }

/-- Scrubbing an image record built by `_get_image_info` erases exactly
its timestamp argument. -/
theorem scrub_get_image_info (i w ht : Nat) (f : String) (l : Nat)
    (fl cu d : String) :
    scrubImageInfo (_get_image_info i w ht f l fl cu d)
      = _get_image_info i w ht f l fl cu "" := rfl

theorem check_valid_congr (c1 c2 : COCODatasetFormatterConfig)
    (h : SameExceptTimestamps c1 c2) (ann : AnnotationRecord) :
    _check_annotation_valid c1 ann = _check_annotation_valid c2 ann := by
  obtain ⟨_, _, hw, hh, ha⟩ := h
  unfold _check_annotation_valid
  rw [hw, hh, ha]

theorem category_name2id_congr (c1 c2 : COCODatasetFormatterConfig)
    (h : SameExceptTimestamps c1 c2) (name : String) :
    category_name2id c1 name = category_name2id c2 name := by
  obtain ⟨_, hcat, _, _, _⟩ := h
  unfold category_name2id
  rw [hcat]

theorem processEntryMasks_congr (c1 c2 : COCODatasetFormatterConfig)
    (h : SameExceptTimestamps c1 c2) (img : Nat) (l : List MaskEntry) :
    ∀ aid : Nat, processEntryMasks c1 img aid l = processEntryMasks c2 img aid l := by
  induction l with
  | nil =>
    intro aid
    rfl
  | cons m rest ih =>
    intro aid
    cases hcat : category_name2id c2 m.category_name with
    | none =>
      have hcat1 : category_name2id c1 m.category_name = none := by
        rw [category_name2id_congr c1 c2 h, hcat]
      simp only [processEntryMasks, hcat1, hcat]
      exact ih aid
    | some cid =>
      have hcat1 : category_name2id c1 m.category_name = some cid := by
        rw [category_name2id_congr c1 c2 h, hcat]
      have hpair : _get_annotation_info c1 aid img cid m
          = _get_annotation_info c2 aid img cid m := by
        simp only [_get_annotation_info]
        rw [check_valid_congr c1 c2 h]
      simp only [processEntryMasks, hcat1, hcat]
      rw [hpair, ih (aid + 1), ih aid]

/-- One entry step preserves scrub-equality of states across the two
configurations. -/
theorem processEntry_scrub_congr (c1 c2 : COCODatasetFormatterConfig)
    (h : SameExceptTimestamps c1 c2) (s1 s2 : AggState)
    (hs : scrubState s1 = scrubState s2) (e : ImgEntry) :
    scrubState (processEntry c1 s1 e) = scrubState (processEntry c2 s2 e) := by
  obtain ⟨i1, a1, al1, il1, w1⟩ := s1
  obtain ⟨i2, a2, al2, il2, w2⟩ := s2
  simp only [scrubState, AggState.mk.injEq] at hs
  obtain ⟨hi, ha, hal, hil, hw⟩ := hs
  subst hi
  subst ha
  subst hal
  subst hw
  unfold processEntry
  simp only
  rw [processEntryMasks_congr c1 c2 h i1 e.annotation_list a1]
  by_cases hlen : (processEntryMasks c2 i1 a1 e.annotation_list).2.length = 0
  · rw [if_pos hlen, if_pos hlen]
    simp [scrubState, hil]
  · rw [if_neg hlen, if_neg hlen]
    simp [scrubState, hil, scrub_get_image_info]

theorem processEntries_scrub_congr (c1 c2 : COCODatasetFormatterConfig)
    (h : SameExceptTimestamps c1 c2) (db : List ImgEntry) :
    ∀ s1 s2 : AggState, scrubState s1 = scrubState s2 →
      scrubState (processEntries c1 s1 db) = scrubState (processEntries c2 s2 db) := by
  induction db with
  | nil =>
    intro s1 s2 hs
    simpa only [processEntries] using hs
  | cons e rest ih =>
    intro s1 s2 hs
    simpa only [processEntries] using
      ih _ _ (processEntry_scrub_congr c1 c2 h s1 s2 hs e)

theorem processDbs_scrub_congr (c1 c2 : COCODatasetFormatterConfig)
    (h : SameExceptTimestamps c1 c2) (dbs : List (List ImgEntry)) :
    ∀ s1 s2 : AggState, scrubState s1 = scrubState s2 →
      scrubState (processDbs c1 s1 dbs) = scrubState (processDbs c2 s2 dbs) := by
  induction dbs with
  | nil =>
    intro s1 s2 hs
    simpa only [processDbs] using hs
  | cons db rest ih =>
    intro s1 s2 hs
    simpa only [processDbs] using
      ih _ _ (processEntries_scrub_congr c1 c2 h db s1 s2 hs)

theorem scrub_process_db_state (c1 c2 : COCODatasetFormatterConfig)
    (h : SameExceptTimestamps c1 c2) (dbs : List (List ImgEntry)) :
    scrubState (process_db_state c1 dbs) = scrubState (process_db_state c2 dbs) :=
  processDbs_scrub_congr c1 c2 h dbs initState initState rfl

theorem map_id_scrub (l : List ImageInfo) :
    (l.map scrubImageInfo).map ImageInfo.id = l.map ImageInfo.id := by
  simp [List.map_map, Function.comp, scrubImageInfo]

theorem map_file_name_scrub (l : List ImageInfo) :
    (l.map scrubImageInfo).map ImageInfo.file_name = l.map ImageInfo.file_name := by
  simp [List.map_map, Function.comp, scrubImageInfo]

/-- Claim C8: two runs over the same database list whose configurations
agree on everything but the timestamp snapshots assign identical image
ids, record ids and image file names, emit identical record lists, and
produce identical documents once the two timestamp fields
(`info.date_created`, the images' shared `date_captured`) are blanked;
serialisation by `json.dump` of equal documents is byte-identical. -/
theorem process_db_list_deterministic (c1 c2 : COCODatasetFormatterConfig)
    (dbs : List (List ImgEntry)) (h : SameExceptTimestamps c1 c2) :
    (process_db_state c1 dbs).written_files
      = (process_db_state c2 dbs).written_files ∧
    (process_db_state c1 dbs).all_image_info_list.map ImageInfo.id
      = (process_db_state c2 dbs).all_image_info_list.map ImageInfo.id ∧
    (process_db_state c1 dbs).all_image_info_list.map ImageInfo.file_name
      = (process_db_state c2 dbs).all_image_info_list.map ImageInfo.file_name ∧
    (process_db_state c1 dbs).all_annotation_list
      = (process_db_state c2 dbs).all_annotation_list ∧
    scrubOutput (process_db_list c1 dbs) = scrubOutput (process_db_list c2 dbs) := by
  have hs := scrub_process_db_state c1 c2 h dbs
  have hwf : (process_db_state c1 dbs).written_files
      = (process_db_state c2 dbs).written_files := by
    have h2 := congrArg AggState.written_files hs
    simpa [scrubState] using h2
  have himg : (process_db_state c1 dbs).all_image_info_list.map scrubImageInfo
      = (process_db_state c2 dbs).all_image_info_list.map scrubImageInfo := by
    have h2 := congrArg AggState.all_image_info_list hs
    simpa [scrubState] using h2
  have hann : (process_db_state c1 dbs).all_annotation_list
      = (process_db_state c2 dbs).all_annotation_list := by
    have h2 := congrArg AggState.all_annotation_list hs
    simpa [scrubState] using h2
  obtain ⟨_, hcat, _, _, _⟩ := h
  refine ⟨hwf, ?_, ?_, hann, ?_⟩
  · rw [← map_id_scrub, himg, map_id_scrub]
  · rw [← map_file_name_scrub, himg, map_file_name_scrub]
  · simp [process_db_list, _get_coco_output, scrubOutput, mkInfo,
      hcat, himg, hann]

/-- Two runs over `dbsEx` with different timestamp snapshots. -/
def cfgEx2 : COCODatasetFormatterConfig :=
  { cfgEx with info_date_created := "2019-05-05 12:00:00",
               date_captured_default := "2019-05-05 12:00:01" }

/-- Witness for C8 on the one-entry run. -/
theorem process_db_list_deterministic_witness :
    (process_db_state cfgEx dbsEx).written_files
      = (process_db_state cfgEx2 dbsEx).written_files ∧
    (process_db_state cfgEx dbsEx).all_image_info_list.map ImageInfo.id
      = (process_db_state cfgEx2 dbsEx).all_image_info_list.map ImageInfo.id ∧
    (process_db_state cfgEx dbsEx).all_image_info_list.map ImageInfo.file_name
      = (process_db_state cfgEx2 dbsEx).all_image_info_list.map ImageInfo.file_name ∧
    (process_db_state cfgEx dbsEx).all_annotation_list
      = (process_db_state cfgEx2 dbsEx).all_annotation_list ∧
    scrubOutput (process_db_list cfgEx dbsEx)
      = scrubOutput (process_db_list cfgEx2 dbsEx) :=
  process_db_list_deterministic cfgEx cfgEx2 dbsEx ⟨rfl, rfl, rfl, rfl, rfl⟩

end CocoFormatter
